import Mathlib

/-!
Shallow embedding of the BLE map-updater transfer engine
(`src/protocol/map_transfer.py` and `src/protocol/authentication.py`).

Modelling conventions:
* Python `int` is `Int` (arbitrary precision in both); Python `bytes` is
  `List Nat` (one entry per byte); Python `dict[int, bytes]` is an
  association list with unique keys; Python `set[int]` is a `List Int`
  without duplicates.
* Wall-clock values (`time.time()`, timestamp strings, `uuid.uuid4()`)
  are passed in as explicit arguments; the rate-limiting `time.sleep`
  is a pure delay with no state effect and is not modelled.
* Library calls (`hashlib.sha256`, `hashlib.md5`, `gzip.decompress`,
  `json.loads` + the structural check it feeds) are parameters collected
  in `Libs`; the manager's control flow around them is translated
  verbatim.
* Floating-point throughput metrics (`transfer_rate_bps`,
  `estimated_completion`, `compression_ratio`, progress percentage) are
  derived display values and are omitted from the state.
* Python `raise ValueError(msg)` inside the translated functions is an
  explicit error constructor; the distinct message strings of the source
  become the distinct constructors.
-/

/-- Enum `TransferState` from `map_transfer.py`. -/
inductive TransferState where
  | idle
  | metadata_received
  | receiving_chunks
  | validating
  | compressing
  | decompressing
  | completed
  | failed
  | cancelled
  | paused
  | resuming
  deriving DecidableEq, Repr

/-- Integer fields of the dataclass `TransferMetrics` (float-valued rate
fields are omitted, see the header). -/
structure TransferMetrics where
  start_time : Int
  bytes_transferred : Int
  chunks_transferred : Int
  retries : Int
  last_chunk_time : Int
  deriving DecidableEq, Repr

/-- The `metadata` dictionary passed to `start_transfer`; `none` means the
key is absent from the dict. -/
structure TransferMetadata where
  file_size : Option Int
  file_hash : Option String
  version : Option Int
  signature : Option String
  compression : Option String
  compressed_size : Option Int
  compressed_hash : Option String
  deriving DecidableEq, Repr

/-- Dataclass `TransferSession`. -/
structure TransferSession where
  session_id : String
  file_size : Int
  compressed_size : Int
  file_hash : String
  compressed_hash : String
  total_chunks : Int
  chunks_received : Int
  start_time : Int
  last_activity : Int
  metadata : TransferMetadata
  received_chunks : List (Int × List Nat)
  missing_chunks : List Int
  state : TransferState
  metrics : TransferMetrics
  is_compressed : Bool
  compression_type : String
  deriving DecidableEq, Repr

/-- Configuration values the transfer manager reads from `config`.
Timing-only settings (`session_timeout`, `max_chunks_per_second`,
`compression_enabled`, `compression_threshold`) influence no modelled
state transition and are omitted. -/
structure Config where
  chunk_size : Int
  max_transfer_size : Int
  required_signature : Bool
  deriving DecidableEq, Repr

/-- Mutable fields of `MapTransferManager` (storage paths are abstracted
into `Disk`). -/
structure Manager where
  config : Config
  current_transfer : Option TransferSession
  last_chunk_time : Int
  deriving DecidableEq, Repr

/-- The file-system state the manager touches: the bytes at
`active_map_path`, the backup files written under the backup directory,
the `backup_map` symlink, and the transient `.tmp` staging file. -/
structure Disk where
  active : Option (List Nat)
  backups : List (String × List Nat)
  backup_pointer : Option String
  temp : Option (List Nat)
  deriving DecidableEq, Repr

/-- External library functions used by the manager: `hashlib.sha256` /
`hashlib.md5` hex digests over bytes, `gzip.decompress` (`none` = raise),
the JSON parse of the active map returning its `metadata.version`
(`none` = `json.load` raised; a parsed file with the key absent yields
`some 0` per the source's `.get` defaults), and the combined
`json.loads` + `_validate_map_structure` structural check. -/
structure Libs where
  sha256 : List Nat → String
  md5 : List Nat → String
  sha256Str : String → String
  md5Str : String → String
  parseVersion : List Nat → Option Int
  gunzip : List Nat → Option (List Nat)
  structOk : List Nat → Bool

/-- Association-list lookup standing for `dict[int, bytes]` access. -/
def lookupChunk (i : Int) : List (Int × List Nat) → Option (List Nat)
  | [] => none
  | (j, b) :: rest => if j = i then some b else lookupChunk i rest

/-- Insertion step for sorting an integer list ascending. -/
def insertSorted (i : Int) : List Int → List Int
  | [] => [i]
  | j :: js => if i ≤ j then i :: j :: js else j :: insertSorted i js

/-- Python `sorted(...)` on a list of ints. -/
def sortInts : List Int → List Int
  | [] => []
  | j :: js => insertSorted j (sortInts js)

/-- Insertion step for sorting chunk items by index. -/
def insertByKey (p : Int × List Nat) : List (Int × List Nat) → List (Int × List Nat)
  | [] => [p]
  | q :: qs => if p.1 ≤ q.1 then p :: q :: qs else q :: insertByKey p qs

/-- Python `sorted(received_chunks.items())` (keys are unique, so key
order decides). -/
def sortByKey : List (Int × List Nat) → List (Int × List Nat)
  | [] => []
  | p :: ps => insertByKey p (sortByKey ps)

/-- Value of a single hexadecimal digit. -/
def hexVal (c : Char) : Option Nat :=
  if '0' ≤ c ∧ c ≤ '9' then some (c.toNat - '0'.toNat)
  else if 'a' ≤ c ∧ c ≤ 'f' then some (c.toNat - 'a'.toNat + 10)
  else if 'A' ≤ c ∧ c ≤ 'F' then some (c.toNat - 'A'.toNat + 10)
  else none

/-- Decode a whitespace-free hex character list two digits per byte. -/
def hexPairs : List Char → Option (List Nat)
  | [] => some []
  | [_] => none
  | c1 :: c2 :: rest =>
    match hexVal c1, hexVal c2, hexPairs rest with
    | some h1, some h2, some bs => some ((h1 * 16 + h2) :: bs)
    | _, _, _ => none

/-- Python `bytes.fromhex` (ASCII whitespace is skipped, any other
non-hex character or an odd digit count raises `ValueError`). -/
def bytes_fromhex (s : String) : Option (List Nat) :=
  hexPairs (s.data.filter (fun c => ¬ c.isWhitespace))

/-- Source `_calculate_total_chunks`: `(size + chunk_size - 1) //
chunk_size` with Python floor division. -/
def calculate_total_chunks (cfg : Config) (file_size : Int) : Int :=
  Int.fdiv (file_size + cfg.chunk_size - 1) cfg.chunk_size

/-- Source `_get_current_map_version`: read the active map's
`metadata.version`, defaulting to 0 on a missing file, parse failure or
missing key. -/
def get_current_map_version (L : Libs) (d : Disk) : Int :=
  match d.active with
  | none => 0
  | some bytes => (L.parseVersion bytes).getD 0

/-- Source `_validate_signature`: real cryptography is stubbed; with
`required_signature` false it accepts anything, otherwise it accepts any
signature longer than 10 characters. -/
def validate_signature (cfg : Config) (signature : String) : Bool :=
  if ¬ cfg.required_signature then true
  else signature.length > 10

/-- The distinct `ValueError` messages raised inside `start_transfer`. -/
inductive StartErr where
  | missingField (name : String)
  | invalidFileSize
  | fileTooLarge
  | versionTooOld
  | signatureRequired
  | invalidSignature
  deriving DecidableEq, Repr

/-- Result dictionary of `start_transfer`: the `"ready"` record or the
`INIT_FAILED` error reply. -/
inductive StartResult where
  | ready (session_id : String) (chunk_size : Int) (total_chunks : Int)
      (expected_hash : String) (compression : Bool)
  | error (e : StartErr)
  deriving DecidableEq, Repr

/-- Source `MapTransferManager.start_transfer`.  `sid` is the fresh
`uuid.uuid4()` string and `now` the value of `time.time()`.  Note the
source never consults `self.current_transfer`: a successful call simply
overwrites it. -/
def start_transfer (L : Libs) (m : Manager) (d : Disk)
    (md : TransferMetadata) (sid : String) (now : Int) :
    Manager × StartResult :=
  match md.file_size with
  | none => (m, .error (.missingField "file_size"))
  | some file_size =>
  match md.file_hash with
  | none => (m, .error (.missingField "file_hash"))
  | some file_hash =>
  match md.version with
  | none => (m, .error (.missingField "version"))
  | some new_version =>
  if file_size ≤ 0 then (m, .error .invalidFileSize)
  else if file_size > m.config.max_transfer_size then (m, .error .fileTooLarge)
  else if new_version ≤ get_current_map_version L d then (m, .error .versionTooOld)
  else
    let sig_check :
        Option StartErr :=
      if m.config.required_signature then
        match md.signature with
        | none => some .signatureRequired
        | some sig =>
          if sig = "" then some .signatureRequired
          else if ¬ validate_signature m.config sig then some .invalidSignature
          else none
      else none
    match sig_check with
    | some e => (m, .error e)
    | none =>
      let is_compressed := (md.compression.getD "none") ≠ "none"
      let compressed_size := md.compressed_size.getD file_size
      let compressed_hash := md.compressed_hash.getD file_hash
      let effective_size := if is_compressed then compressed_size else file_size
      let total_chunks := calculate_total_chunks m.config effective_size
      let session : TransferSession :=
        { session_id := sid
          file_size := file_size
          compressed_size := compressed_size
          file_hash := file_hash
          compressed_hash := compressed_hash
          total_chunks := total_chunks
          chunks_received := 0
          start_time := now
          last_activity := now
          metadata := md
          received_chunks := []
          missing_chunks := (List.range total_chunks.toNat).map (Int.ofNat ·)
          state := .metadata_received
          metrics :=
            { start_time := now, bytes_transferred := 0,
              chunks_transferred := 0, retries := 0, last_chunk_time := 0 }
          is_compressed := is_compressed
          compression_type := md.compression.getD "none" }
      ({ m with current_transfer := some session },
       .ready sid m.config.chunk_size total_chunks
         (if is_compressed then compressed_hash else file_hash) is_compressed)

/-- The distinct `ValueError` messages raised while processing one chunk
in `receive_chunk` (all surfaced as `CHUNK_PROCESSING_FAILED`). -/
inductive ChunkErr where
  | missingFields
  | sessionMismatch
  | invalidIndex
  | indexTooLarge
  | invalidHex
  | sizeMismatch
  | checksumMismatch
  deriving DecidableEq, Repr

/-- The distinct failure causes of `_complete_transfer` (all surfaced as
`TRANSFER_VALIDATION_FAILED`). -/
inductive CompleteFailure where
  | missingChunks
  | reassemblyLengthMismatch
  | wireHashMismatch
  | decompressFailed
  | canonicalHashMismatch
  | structuralInvalid
  deriving DecidableEq, Repr

/-- Result dictionary of `receive_chunk` (which inlines the result of
`_complete_transfer` when the last chunk arrives). -/
inductive ChunkResult where
  | noActiveTransfer
  | invalidState (st : TransferState)
  | chunkError (e : ChunkErr)
  | duplicate (chunk_index : Int)
  | ack (chunk_index : Int) (chunks_received : Int) (total_chunks : Int)
      (missing_sample : List Int)
  | completed (file_hash : String) (file_size : Int) (new_version : Option Int)
  | completeFailed (e : CompleteFailure)
  deriving DecidableEq, Repr

/-- Python truthiness guard `if session_id and session_id !=
self.current_transfer.session_id` (a missing or empty id skips the
check). -/
def sessionMismatchB : Option String → String → Bool
  | none, _ => false
  | some sid, cur => sid ≠ "" && sid ≠ cur

/-- Python truthiness guard `if checksum:` followed by the md5
comparison (a missing or empty checksum skips the check). -/
def checksumBadB : Option String → String → Bool
  | none, _ => false
  | some c, computed => c ≠ "" && c ≠ computed

/-- The `chunk_data` dictionary handed to `receive_chunk`; `none` means
the key is absent. -/
structure ChunkData where
  chunk_index : Option Int
  data : Option String
  session_id : Option String
  checksum : Option String
  deriving DecidableEq, Repr

/-- Step 9 and 10 of `receive_chunk`: store the decoded bytes, update the
missing set, counters, activity time, state and metrics. -/
def store_chunk (s : TransferSession) (i : Int) (chunk_bytes : List Nat)
    (now : Int) : TransferSession :=
  let received := s.received_chunks ++ [(i, chunk_bytes)]
  { s with
    received_chunks := received
    missing_chunks := s.missing_chunks.filter (· ≠ i)
    chunks_received := (received.length : Int)
    last_activity := now
    state := .receiving_chunks
    metrics :=
      { s.metrics with
        chunks_transferred := s.metrics.chunks_transferred + 1
        bytes_transferred := s.metrics.bytes_transferred + (chunk_bytes.length : Int)
        last_chunk_time := now } }

/-- Source `_get_expected_chunk_size`. -/
def get_expected_chunk_size (cfg : Config) (s : TransferSession)
    (chunk_index : Int) : Int :=
  let effective_size := if s.is_compressed then s.compressed_size else s.file_size
  if chunk_index = s.total_chunks - 1 then
    let remaining := effective_size % cfg.chunk_size
    if remaining > 0 then remaining else cfg.chunk_size
  else cfg.chunk_size

/-- The `except` path of `receive_chunk`: the retry counter is bumped and
a `CHUNK_PROCESSING_FAILED` reply is returned; the chunk table, missing
set, counters and state are untouched. -/
def chunkFail (m : Manager) (s : TransferSession) (d : Disk) (e : ChunkErr) :
    Manager × Disk × ChunkResult :=
  let s1 := { s with metrics := { s.metrics with retries := s.metrics.retries + 1 } }
  ({ m with current_transfer := some s1 }, d, .chunkError e)

/-- Source `_reconstruct_file`: check that every expected index was
received, concatenate the chunks sorted by index, and check the total
length against the wire size. -/
def reconstruct_file (s : TransferSession) : Except CompleteFailure (List Nat) :=
  let expected_indices := (List.range s.total_chunks.toNat).map (Int.ofNat ·)
  let missing := expected_indices.filter (fun i => (lookupChunk i s.received_chunks).isNone)
  if missing ≠ [] then .error .missingChunks
  else
    let file_data := ((sortByKey s.received_chunks).map Prod.snd).flatten
    let expected_size := if s.is_compressed then s.compressed_size else s.file_size
    if (file_data.length : Int) ≠ expected_size then .error .reassemblyLengthMismatch
    else .ok file_data

/-- Source `_decompress_data`: gzip is delegated to the library, `"none"`
is the identity, anything else raises. -/
def decompress_data (L : Libs) (data : List Nat) (ctype : String) :
    Option (List Nat) :=
  if ctype = "gzip" then L.gunzip data
  else if ctype = "none" then some data
  else none

/-- Step 3 of `_complete_transfer`: decompress when the session is
compressed and check the decompressed (canonical) hash. -/
def decompress_step (L : Libs) (s : TransferSession) (data : List Nat) :
    Except CompleteFailure (List Nat) :=
  if s.is_compressed then
    match decompress_data L data s.compression_type with
    | none => .error .decompressFailed
    | some out =>
      if L.sha256 out ≠ s.file_hash then .error .canonicalHashMismatch
      else .ok out
  else .ok data

/-- Source `_backup_current_map`: when an active map exists, copy it to a
timestamped backup file and point the `backup_map` symlink at it. -/
def backup_current_map (d : Disk) (ts : String) : Disk :=
  match d.active with
  | none => d
  | some bytes =>
    let backup_filename := "backup_map_" ++ ts ++ ".json"
    { d with
      backups := d.backups ++ [(backup_filename, bytes)]
      backup_pointer := some backup_filename }

/-- The `except` path of `_complete_transfer`: mark the session failed,
delete the staging `.tmp` file if present, and clear
`current_transfer`; `active_path` and the backups are untouched. -/
def completeFail (m : Manager) (d : Disk) (e : CompleteFailure) :
    Manager × Disk × ChunkResult :=
  ({ m with current_transfer := none }, { d with temp := none },
   .completeFailed e)

/-- Source `_complete_transfer`: reconstruct, check the wire hash,
decompress and check the canonical hash, check the JSON structure, back
up the current map, stage-write and atomically replace `active_path`,
then clean up the session.  `ts` is the backup timestamp string.  The
completion reply's `file_hash` is the wire-side hash, as in the source;
its `new_version` is the session metadata's `version` entry. -/
def complete_transfer (L : Libs) (m : Manager) (s : TransferSession)
    (d : Disk) (ts : String) : Manager × Disk × ChunkResult :=
  match reconstruct_file s with
  | .error e => completeFail m d e
  | .ok wire_data =>
    let calculated_hash := L.sha256 wire_data
    let expected_hash := if s.is_compressed then s.compressed_hash else s.file_hash
    if calculated_hash ≠ expected_hash then completeFail m d .wireHashMismatch
    else
      match decompress_step L s wire_data with
      | .error e => completeFail m d e
      | .ok file_data =>
        if ¬ L.structOk file_data then completeFail m d .structuralInvalid
        else
          let d1 := backup_current_map d ts
          let d2 := { d1 with temp := some file_data }
          let d3 := { d2 with active := some file_data, temp := none }
          ({ m with current_transfer := none }, d3,
           .completed calculated_hash s.file_size s.metadata.version)

/-- Source `MapTransferManager.receive_chunk`.  `now` is `time.time()`
and `ts` the backup timestamp used if this chunk completes the
transfer.  The rate-limiting sleep has no state effect beyond the
manager's `last_chunk_time` and is otherwise skipped. -/
def receive_chunk (L : Libs) (m : Manager) (d : Disk) (cd : ChunkData)
    (now : Int) (ts : String) : Manager × Disk × ChunkResult :=
  match m.current_transfer with
  | none => (m, d, .noActiveTransfer)
  | some s =>
    if s.state = .metadata_received ∨ s.state = .receiving_chunks then
      let m1 := { m with last_chunk_time := now }
      match cd.chunk_index, cd.data with
      | none, _ => chunkFail m1 s d .missingFields
      | some _, none => chunkFail m1 s d .missingFields
      | some i, some hex_data =>
        if sessionMismatchB cd.session_id s.session_id then
          chunkFail m1 s d .sessionMismatch
        else if i < 0 then chunkFail m1 s d .invalidIndex
        else if i ≥ s.total_chunks then chunkFail m1 s d .indexTooLarge
        else
          match bytes_fromhex hex_data with
          | none => chunkFail m1 s d .invalidHex
          | some chunk_bytes =>
            if (chunk_bytes.length : Int) ≠ get_expected_chunk_size m.config s i then
              chunkFail m1 s d .sizeMismatch
            else if checksumBadB cd.checksum (L.md5 chunk_bytes) then
              chunkFail m1 s d .checksumMismatch
            else
              match lookupChunk i s.received_chunks with
              | some _ => (m1, d, .duplicate i)
              | none =>
                let s1 := store_chunk s i chunk_bytes now
                if s1.chunks_received ≥ s1.total_chunks then
                  complete_transfer L m1 s1 d ts
                else
                  ({ m1 with current_transfer := some s1 }, d,
                   .ack i s1.chunks_received s1.total_chunks
                     ((sortInts s1.missing_chunks).take 10))
    else (m, d, .invalidState s.state)

/-- Result dictionaries of `pause_transfer`, `resume_transfer` and
`cancel_transfer`. -/
inductive ControlResult where
  | noTransfer
  | badState (st : TransferState)
  | pausedOk (session_id : String) (chunks_received : Int)
  | resumingOk (session_id : String) (missing_chunks : List Int)
      (chunks_received : Int) (total_chunks : Int)
  | cancelledOk (session_id : String)
  deriving DecidableEq, Repr

/-- Source `pause_transfer`: legal only from `RECEIVING_CHUNKS`. -/
def pause_transfer (m : Manager) : Manager × ControlResult :=
  match m.current_transfer with
  | none => (m, .noTransfer)
  | some s =>
    if s.state ≠ .receiving_chunks then (m, .badState s.state)
    else
      ({ m with current_transfer := some { s with state := .paused } },
       .pausedOk s.session_id s.chunks_received)

/-- Source `resume_transfer`: legal only from `PAUSED`; sets the state to
`RESUMING` and returns the sorted missing set. -/
def resume_transfer (m : Manager) (now : Int) : Manager × ControlResult :=
  match m.current_transfer with
  | none => (m, .noTransfer)
  | some s =>
    if s.state ≠ .paused then (m, .badState s.state)
    else
      let s1 := { s with state := .resuming, last_activity := now }
      ({ m with current_transfer := some s1 },
       .resumingOk s1.session_id (sortInts s1.missing_chunks)
         s1.chunks_received s1.total_chunks)

/-- Source `cancel_transfer`: marks the session cancelled and clears it. -/
def cancel_transfer (m : Manager) : Manager × ControlResult :=
  match m.current_transfer with
  | none => (m, .noTransfer)
  | some s => ({ m with current_transfer := none }, .cancelledOk s.session_id)

/-- Enum `AuthState` from `authentication.py`. -/
inductive AuthState where
  | initial
  | challenge_sent
  | authenticated
  | failed
  | expired
  deriving DecidableEq, Repr

/-- Dataclass `AuthSession` (the opaque `client_info` dict is a list of
string pairs). -/
structure AuthSession where
  device_id : String
  challenge : String
  challenge_time : Int
  state : AuthState
  attempts : Int
  client_info : Option (List (String × String))
  deriving DecidableEq, Repr

/-- Mutable fields of `AuthenticationManager`. -/
structure AuthManager where
  device_id : String
  auth_timeout : Int
  max_attempts : Int
  sessions : List (String × AuthSession)
  signature_enabled : Bool
  deriving DecidableEq, Repr

/-- The `response_data` dictionary handed to `verify_challenge_response`;
`none` means the key is absent. -/
structure ResponseData where
  challenge : Option String
  signature : Option String
  client_info : Option (List (String × String))
  deriving DecidableEq, Repr

/-- Result dictionary of `verify_challenge_response`. -/
inductive AuthResult where
  | noActiveChallenge
  | invalidState
  | challengeExpired
  | invalidFormat (missing : String)
  | challengeMismatch
  | invalidSignature
  | authenticated (session_id : String)
  deriving DecidableEq, Repr

/-- Lookup in the `sessions` dict of the authentication manager. -/
def lookupAuth (client_id : String) : List (String × AuthSession) → Option AuthSession
  | [] => none
  | (c, s) :: rest => if c = client_id then some s else lookupAuth client_id rest

/-- Replace (or add) a client's entry in the `sessions` dict. -/
def updateAuth (client_id : String) (sess : AuthSession) :
    List (String × AuthSession) → List (String × AuthSession)
  | [] => [(client_id, sess)]
  | (c, s) :: rest =>
    if c = client_id then (c, sess) :: rest
    else (c, s) :: updateAuth client_id sess rest

/-- Source `_generate_demo_signature` (the identical expression is also
what `_verify_signature` computes): the sha256 hex digest of
`"challenge:client_id:device_id"`. -/
def generate_demo_signature (L : Libs) (am : AuthManager)
    (challenge : String) (client_id : String) : String :=
  L.sha256Str (challenge ++ ":" ++ client_id ++ ":" ++ am.device_id)

/-- Source `_verify_signature`: equality against the locally computed
keyed digest (real public-key cryptography is a placeholder). -/
def verify_signature (L : Libs) (am : AuthManager) (challenge : String)
    (signature : String) (client_id : String) : Bool :=
  signature = generate_demo_signature L am challenge client_id

/-- Source `_generate_session_id`: md5 hex digest over
`"client_id:device_id:timestamp"`. -/
def generate_session_id (L : Libs) (am : AuthManager) (client_id : String)
    (now : Int) : String :=
  L.md5Str (client_id ++ ":" ++ am.device_id ++ ":" ++ toString now)

/-- Source `AuthenticationManager.verify_challenge_response`.  `now` is
`time.time()`.  Note the demo branch (`signature_enabled = false`): a
signature differing from the expected digest is merely logged and the
client is authenticated anyway. -/
def verify_challenge_response (L : Libs) (am : AuthManager)
    (client_id : String) (rd : ResponseData) (now : Int) :
    AuthManager × AuthResult :=
  match lookupAuth client_id am.sessions with
  | none => (am, .noActiveChallenge)
  | some session0 =>
    let session := { session0 with attempts := session0.attempts + 1 }
    if session.state ≠ .challenge_sent then
      let s1 := { session with state := .failed }
      ({ am with sessions := updateAuth client_id s1 am.sessions }, .invalidState)
    else if now - session.challenge_time > am.auth_timeout then
      let s1 := { session with state := .expired }
      ({ am with sessions := updateAuth client_id s1 am.sessions }, .challengeExpired)
    else
      match rd.challenge with
      | none =>
        let s1 := { session with state := .failed }
        ({ am with sessions := updateAuth client_id s1 am.sessions },
         .invalidFormat "challenge")
      | some resp_challenge =>
        match rd.signature with
        | none =>
          let s1 := { session with state := .failed }
          ({ am with sessions := updateAuth client_id s1 am.sessions },
           .invalidFormat "signature")
        | some resp_signature =>
          if resp_challenge ≠ session.challenge then
            let s1 := { session with state := .failed }
            ({ am with sessions := updateAuth client_id s1 am.sessions },
             .challengeMismatch)
          else if am.signature_enabled ∧
              ¬ verify_signature L am session.challenge resp_signature client_id then
            let s1 := { session with state := .failed }
            ({ am with sessions := updateAuth client_id s1 am.sessions },
             .invalidSignature)
          else
            let s1 := { session with
                        state := .authenticated,
                        client_info := some (rd.client_info.getD []) }
            ({ am with sessions := updateAuth client_id s1 am.sessions },
             .authenticated (generate_session_id L am client_id now))

/-- Results of `receive_chunk` that mean the frame's chunk was stored in
the session table (a plain ack, or the inlined completion attempt that
the final chunk triggers). -/
def acceptedResult : ChunkResult → Bool
  | .ack _ _ _ _ => true
  | .completed _ _ _ => true
  | .completeFailed _ => true
  | _ => false

theorem complete_transfer_shape (L : Libs) (m : Manager)
    (s : TransferSession) (d : Disk) (ts : String) :
    acceptedResult (complete_transfer L m s d ts).2.2 = true := by
  unfold complete_transfer
  cases hrec : reconstruct_file s with
  | error e => simp [completeFail, acceptedResult]
  | ok wire =>
    by_cases hh : L.sha256 wire ≠ (if s.is_compressed then s.compressed_hash else s.file_hash)
    · simp [hh, completeFail, acceptedResult]
    · simp only [hh, if_false]
      cases hd : decompress_step L s wire with
      | error e => simp [hd, completeFail, acceptedResult]
      | ok canon =>
        by_cases hs : L.structOk canon
        · simp [hd, hs, completeFail, acceptedResult]
        · simp [hd, hs, completeFail, acceptedResult]

theorem completeFail_active (m : Manager) (d : Disk) (e : CompleteFailure) :
    (completeFail m d e).2.1.active = d.active ∧
    (completeFail m d e).2.1.backups = d.backups ∧
    (completeFail m d e).2.1.backup_pointer = d.backup_pointer := by
  simp [completeFail]

/-- C6: for every session that reaches a Failed terminal state in the
integrity pipeline (reassembly length mismatch, wire or canonical hash
mismatch, decompression failure, or structural invalidity — every
`completeFailed` outcome), the bytes at `active_path` are identical to
their pre-session contents, and no backup file (nor backup-pointer
update) is created; in particular none is created on a wire-hash
mismatch. -/
theorem C6_failed_pipeline_preserves_disk (L : Libs) (m : Manager)
    (s : TransferSession) (d : Disk) (ts : String) (e : CompleteFailure)
    (h : (complete_transfer L m s d ts).2.2 = .completeFailed e) :
    (complete_transfer L m s d ts).2.1.active = d.active ∧
    (complete_transfer L m s d ts).2.1.backups = d.backups ∧
    (complete_transfer L m s d ts).2.1.backup_pointer = d.backup_pointer := by
  cases hrec : reconstruct_file s with
  | error e0 =>
    simp [complete_transfer, hrec, completeFail]
  | ok wire =>
    by_cases hh : L.sha256 wire ≠ (if s.is_compressed then s.compressed_hash else s.file_hash)
    · simp [complete_transfer, hrec, hh, completeFail]
    · cases hd : decompress_step L s wire with
      | error e1 =>
        simp [complete_transfer, hrec, hh, hd, completeFail]
      | ok canon =>
        by_cases hs : L.structOk canon
        · exfalso
          simp [complete_transfer, hrec, hh, hd, hs, completeFail] at h
        · simp [complete_transfer, hrec, hh, hd, hs, completeFail]

/-- Library fixture for concrete evaluations: every byte string hashes
to `"H"` under sha256 and `"M"` under md5; gzip always fails; the
installed map always parses with version 100; every canonical payload
passes the structural check. -/
def fxL : Libs :=
  { sha256 := fun _ => "H", md5 := fun _ => "M",
    sha256Str := fun s => "E" ++ s, md5Str := fun s => "D" ++ s,
    parseVersion := fun _ => some 100,
    gunzip := fun _ => none, structOk := fun _ => true }

/-- Config fixture: 2-byte chunks, 100-byte limit, no signature policy. -/
def fxCfg : Config :=
  { chunk_size := 2, max_transfer_size := 100, required_signature := false }

/-- Metrics fixture. -/
def fxMet : TransferMetrics :=
  { start_time := 0, bytes_transferred := 0, chunks_transferred := 0,
    retries := 0, last_chunk_time := 0 }

/-- Metadata fixture: a 2-byte uncompressed map, version 1. -/
def fxMd : TransferMetadata :=
  { file_size := some 2, file_hash := some "H", version := some 1,
    signature := none, compression := none, compressed_size := none,
    compressed_hash := none }

/-- Session fixture: version-1 session whose single 2-byte chunk has
been received; its wire hash under `fxL` is `"H"`. -/
def fxS : TransferSession :=
  { session_id := "sid", file_size := 2, compressed_size := 2,
    file_hash := "H", compressed_hash := "H", total_chunks := 1,
    chunks_received := 1, start_time := 0, last_activity := 0,
    metadata := fxMd, received_chunks := [(0, [1, 2])],
    missing_chunks := [], state := .receiving_chunks, metrics := fxMet,
    is_compressed := false, compression_type := "none" }

/-- Session fixture identical to `fxS` except its expected hash `"X"`
differs from the computed wire hash `"H"`. -/
def fxSbad : TransferSession :=
  { fxS with file_hash := "X", compressed_hash := "X" }

/-- Disk fixture: an installed map (which `fxL` parses as version 100),
no backups. -/
def fxD : Disk :=
  { active := some [9], backups := [], backup_pointer := none, temp := none }

/-- Manager fixture with no active session. -/
def fxM : Manager :=
  { config := fxCfg, current_transfer := none, last_chunk_time := 0 }

/-- Witness instantiating `C6_failed_pipeline_preserves_disk`: a
completed wire-hash-mismatch session leaves the installed map and the
(empty) backup set untouched. -/
theorem C6_failed_pipeline_preserves_disk_witness :
    (complete_transfer fxL fxM fxSbad fxD "ts").2.1.active = fxD.active ∧
    (complete_transfer fxL fxM fxSbad fxD "ts").2.1.backups = fxD.backups := by
  have h := C6_failed_pipeline_preserves_disk fxL fxM fxSbad fxD "ts"
      .wireHashMismatch (by rfl)
  exact ⟨h.1, h.2.1⟩

/-- C2 counterexample: with an installed map of version 100 on disk and
a fully validated session carrying version 1, `_complete_transfer`
succeeds and replaces `active_path` — the commit performs no re-read of
the installed version and there is no `VersionRaceLost` failure, refuting
the claim at this input. -/
theorem C2_version_race_counterexample :
    get_current_map_version fxL fxD = 100 ∧
    fxS.metadata.version = some 1 ∧
    (complete_transfer fxL fxM fxS fxD "ts").2.2 = .completed "H" 2 (some 1) ∧
    (complete_transfer fxL fxM fxS fxD "ts").2.1.active = some [1, 2] := by
  exact ⟨rfl, rfl, rfl, rfl⟩

/-- C2 amended: the commit consults no version at all.  Whenever the
integrity pipeline of `_complete_transfer` succeeds (reassembly, wire
hash, decompression/canonical hash, structural check), the transfer
completes and `active_path` is replaced by the canonical bytes — for
every disk state, in particular whatever version the installed map
carries; the installed version is checked only by `start_transfer`. -/
theorem C2_commit_has_no_version_gate (L : Libs) (m : Manager)
    (s : TransferSession) (d : Disk) (ts : String) (wire canon : List Nat)
    (hrec : reconstruct_file s = .ok wire)
    (hh : L.sha256 wire = (if s.is_compressed then s.compressed_hash else s.file_hash))
    (hd : decompress_step L s wire = .ok canon)
    (hs : L.structOk canon = true) :
    (complete_transfer L m s d ts).2.2 =
      .completed (L.sha256 wire) s.file_size s.metadata.version ∧
    (complete_transfer L m s d ts).2.1.active = some canon := by
  simp [complete_transfer, hrec, hh, hd, hs]

/-- Witness instantiating `C2_commit_has_no_version_gate` at a concrete
validated session over a disk holding a version-100 map. -/
theorem C2_commit_has_no_version_gate_witness :
    (complete_transfer fxL fxM fxS fxD "ts").2.2 =
      .completed (fxL.sha256 [1, 2]) fxS.file_size fxS.metadata.version ∧
    (complete_transfer fxL fxM fxS fxD "ts").2.1.active = some [1, 2] :=
  C2_commit_has_no_version_gate fxL fxM fxS fxD "ts" [1, 2] [1, 2]
    (by rfl) (by rfl) (by rfl) (by rfl)

/-- Manager fixture whose current session `fxS` is non-terminal
(`receiving_chunks`). -/
def fxMact : Manager :=
  { config := fxCfg, current_transfer := some fxS, last_chunk_time := 0 }

/-- Metadata fixture for a second `transfer_init` (version 101 beats the
installed version 100 of `fxD`). -/
def fxMd2 : TransferMetadata :=
  { fxMd with version := some 101 }

/-- C1: `start_transfer` has no active-session guard.  Called while the
current session `fxS` is non-terminal (`receiving_chunks`), it returns
`ready` — not a `TransferAlreadyActive` error — and silently replaces
the in-flight session (the repo's own test suites assert the
`TRANSFER_ALREADY_ACTIVE` error here instead). -/
theorem C1_no_transfer_already_active_guard :
    fxS.state = .receiving_chunks ∧
    (start_transfer fxL fxMact fxD fxMd2 "sid2" 7).2 = .ready "sid2" 2 1 "H" false ∧
    (start_transfer fxL fxMact fxD fxMd2 "sid2" 7).1.current_transfer ≠ some fxS := by
  refine ⟨rfl, rfl, ?_⟩
  decide

/-- Paused session fixture: nothing received yet, chunk 0 missing. -/
def fxSp : TransferSession :=
  { fxS with
    state := .paused,
    received_chunks := [],
    chunks_received := 0,
    missing_chunks := [0] }

/-- Manager fixture holding the paused session. -/
def fxMp : Manager :=
  { config := fxCfg, current_transfer := some fxSp, last_chunk_time := 0 }

/-- A well-formed frame for the missing chunk 0 of `fxSp`. -/
def fxFrame0 : ChunkData :=
  { chunk_index := some 0, data := some "0102",
    session_id := some "sid", checksum := none }

/-- C3: `resume_transfer` does return the missing set, but it puts the
session into `RESUMING`, not `Receiving`; `receive_chunk` accepts only
`METADATA_RECEIVED` or `RECEIVING_CHUNKS`, so the very next well-formed
chunk for a missing index is rejected with an invalid-state error (the
repo's own resume test asserts the replayed chunks complete the
transfer instead). -/
theorem C3_resume_leaves_session_unreceivable :
    (resume_transfer fxMp 9).2 = .resumingOk "sid" [0] 0 1 ∧
    (resume_transfer fxMp 9).1.current_transfer =
      some { fxSp with state := .resuming, last_activity := 9 } ∧
    (receive_chunk fxL (resume_transfer fxMp 9).1 fxD fxFrame0 10 "ts").2.2 =
      .invalidState .resuming := by
  exact ⟨rfl, rfl, rfl⟩

/-- Compressed metadata fixture whose wire size (`compressed_size` 101)
is one byte over `fxCfg`'s `max_transfer_size` 100 while `file_size`
is exactly at the limit. -/
def fxMdWire : TransferMetadata :=
  { file_size := some 100, file_hash := some "H", version := some 101,
    signature := none, compression := some "gzip",
    compressed_size := some 101, compressed_hash := some "CH" }

/-- C4 counterexample: a `transfer_init` whose wire size
(`compressed_size`, compression ≠ none) equals `max_transfer_size + 1`
is accepted with `ready` — `start_transfer` sizes its check on
`file_size` alone, refuting the claim at this input. -/
theorem C4_wire_size_counterexample :
    fxMdWire.compression = some "gzip" ∧
    fxMdWire.compressed_size = some (fxCfg.max_transfer_size + 1) ∧
    fxMdWire.file_size = some fxCfg.max_transfer_size ∧
    (start_transfer fxL fxM fxD fxMdWire "sidw" 0).2 = .ready "sidw" 2 51 "CH" true := by
  exact ⟨rfl, rfl, rfl, rfl⟩

/-- C4 amended: the `FileTooLarge` rejection is decided by `file_size`
alone — for metadata whose required fields are present and whose
`file_size` is positive, `start_transfer` returns `FileTooLarge` exactly
when `file_size > max_transfer_size`, independently of `compression` and
`compressed_size`; so `file_size = max_transfer_size` is never rejected
for size and `file_size = max_transfer_size + 1` always is. -/
theorem C4_size_gate_is_file_size (L : Libs) (m : Manager) (d : Disk)
    (md : TransferMetadata) (sid : String) (now : Int) (fs : Int)
    (fh : String) (v : Int)
    (hfs : md.file_size = some fs) (hfh : md.file_hash = some fh)
    (hv : md.version = some v) (hpos : 0 < fs) :
    (start_transfer L m d md sid now).2 = .error .fileTooLarge ↔
      m.config.max_transfer_size < fs := by
  constructor
  · intro h
    by_contra hnot
    revert h
    simp only [start_transfer, hfs, hfh, hv]
    rw [if_neg (by omega : ¬ fs ≤ 0),
      if_neg (by omega : ¬ fs > m.config.max_transfer_size)]
    split
    · simp
    · split
      · rename_i e heq
        intro h2
        have he : e = .fileTooLarge := by simpa using h2
        subst he
        split at heq
        · cases hsg : md.signature with
          | none => simp [hsg] at heq
          | some sig =>
            simp only [hsg] at heq
            split at heq
            · simp_all
            · split at heq <;> simp_all
        · simp_all
      · simp
  · intro hlt
    simp only [start_transfer, hfs, hfh, hv]
    rw [if_neg (by omega : ¬ fs ≤ 0),
      if_pos (by omega : fs > m.config.max_transfer_size)]

/-- Uncompressed metadata fixture one byte over the limit. -/
def fxMdBig : TransferMetadata :=
  { file_size := some 101, file_hash := some "H", version := some 101,
    signature := none, compression := none, compressed_size := none,
    compressed_hash := none }

/-- Witness instantiating `C4_size_gate_is_file_size`:
`file_size = max_transfer_size + 1` is rejected as `FileTooLarge`. -/
theorem C4_size_gate_is_file_size_witness :
    (start_transfer fxL fxM fxD fxMdBig "s" 0).2 = .error .fileTooLarge :=
  (C4_size_gate_is_file_size fxL fxM fxD fxMdBig "s" 0 101 "H" 101
    rfl rfl rfl (by decide)).mpr (by decide)

/-- Auth session fixture: challenge `"x"` outstanding for client `"c"`. -/
def fxAs : AuthSession :=
  { device_id := "c", challenge := "x", challenge_time := 0,
    state := .challenge_sent, attempts := 0, client_info := none }

/-- Auth manager fixture in demo mode (`signature_enabled = false`). -/
def fxAm : AuthManager :=
  { device_id := "dev", auth_timeout := 60, max_attempts := 3,
    sessions := [("c", fxAs)], signature_enabled := false }

/-- A challenge response whose signature matches nothing. -/
def fxRdBad : ResponseData :=
  { challenge := some "x", signature := some "bad", client_info := none }

/-- C5 counterexample: with `required_signature` false, a response whose
signature differs from the locally computed keyed digest is still
authenticated — the session reaches `Authenticated` although the
signature matches neither verification rule, refuting the claim at this
input. -/
theorem C5_demo_mode_accepts_bad_signature :
    fxAm.signature_enabled = false ∧
    "bad" ≠ generate_demo_signature fxL fxAm "x" "c" ∧
    (verify_challenge_response fxL fxAm "c" fxRdBad 1).2 =
      .authenticated "Dc:dev:1" ∧
    (lookupAuth "c" (verify_challenge_response fxL fxAm "c" fxRdBad 1).1.sessions).map
      AuthSession.state = some .authenticated := by
  refine ⟨rfl, by decide, by decide, by decide⟩

theorem lookupAuth_updateAuth (c : String) (s : AuthSession)
    (l : List (String × AuthSession)) :
    lookupAuth c (updateAuth c s l) = some s := by
  induction l with
  | nil => simp [updateAuth, lookupAuth]
  | cons p rest ih =>
    obtain ⟨c0, s0⟩ := p
    by_cases h : c0 = c
    · simp [updateAuth, lookupAuth, h]
    · simp [updateAuth, lookupAuth, h, ih]

/-- C5 amended: for a response reaching the signature step (outstanding
challenge, in time, fields present, challenge matches), authentication
succeeds exactly when `required_signature` is false — any signature at
all is accepted in that mode, a mismatch being only logged — or the
signature equals the locally computed keyed digest; and with
`required_signature` true a non-matching signature is rejected as
`InvalidSignature` and the session is marked failed, never
authenticated. -/
theorem C5_signature_gate_characterization (L : Libs) (am : AuthManager)
    (client_id : String) (rd : ResponseData) (now : Int)
    (sess : AuthSession) (sig : String)
    (hs : lookupAuth client_id am.sessions = some sess)
    (hstate : sess.state = .challenge_sent)
    (htime : now - sess.challenge_time ≤ am.auth_timeout)
    (hch : rd.challenge = some sess.challenge)
    (hsig : rd.signature = some sig) :
    ((∃ sid, (verify_challenge_response L am client_id rd now).2 = .authenticated sid) ↔
      (am.signature_enabled = false ∨
        sig = generate_demo_signature L am sess.challenge client_id)) ∧
    (am.signature_enabled = true →
      sig ≠ generate_demo_signature L am sess.challenge client_id →
      (verify_challenge_response L am client_id rd now).2 = .invalidSignature ∧
      (lookupAuth client_id
          (verify_challenge_response L am client_id rd now).1.sessions).map
        AuthSession.state = some .failed) := by
  have hver : verify_signature L am sess.challenge sig client_id =
      decide (sig = generate_demo_signature L am sess.challenge client_id) := rfl
  by_cases hc : am.signature_enabled = true ∧
      ¬ sig = generate_demo_signature L am sess.challenge client_id
  · constructor
    · constructor
      · intro ⟨sid, hres⟩
        exfalso
        revert hres
        simp [verify_challenge_response, hs, hstate, hch, hsig, verify_signature,
          if_neg (by omega : ¬ now - sess.challenge_time > am.auth_timeout), hc.1, hc.2]
      · intro hdisj
        exfalso
        rcases hdisj with hfalse | heq
        · rw [hc.1] at hfalse; simp at hfalse
        · exact hc.2 heq
    · intro _ _
      constructor
      · simp [verify_challenge_response, hs, hstate, hch, hsig, verify_signature,
          if_neg (by omega : ¬ now - sess.challenge_time > am.auth_timeout), hc.1, hc.2]
      · simp [verify_challenge_response, hs, hstate, hch, hsig, verify_signature,
          if_neg (by omega : ¬ now - sess.challenge_time > am.auth_timeout), hc.1, hc.2,
          lookupAuth_updateAuth]
  · constructor
    · constructor
      · intro _
        rcases Decidable.not_and_iff_or_not.mp hc with hne | hnn
        · exact Or.inl (by revert hne; cases am.signature_enabled <;> simp)
        · exact Or.inr (not_not.mp hnn)
      · intro _
        refine ⟨generate_session_id L am client_id now, ?_⟩
        simp [verify_challenge_response, hs, hstate, hch, hsig, verify_signature,
          if_neg (by omega : ¬ now - sess.challenge_time > am.auth_timeout), hc]
    · intro htrue hne
      exact absurd ⟨htrue, hne⟩ hc

/-- Witness instantiating `C5_signature_gate_characterization` in demo
mode: the mismatched signature `"bad"` is still authenticated. -/
theorem C5_signature_gate_characterization_witness :
    ∃ sid, (verify_challenge_response fxL fxAm "c" fxRdBad 1).2 =
      .authenticated sid :=
  ((C5_signature_gate_characterization fxL fxAm "c" fxRdBad 1 fxAs "bad"
      (by decide) (by decide) (by decide) (by decide) (by decide)).1).mpr
    (Or.inl (by decide))

/-- C7: replaying a well-formed frame for an index already present in
the session's chunk table returns `Duplicate` and changes nothing but
the manager's rate-limit clock: the session — its `received_chunks`
(hence the stored bytes for that index) and its `chunks_received` — is
exactly as before the call. -/
theorem C7_duplicate_chunk_idempotent (L : Libs) (m : Manager) (d : Disk)
    (cd : ChunkData) (now : Int) (ts : String) (s : TransferSession)
    (i : Int) (hex_data : String) (bs b0 : List Nat)
    (hm : m.current_transfer = some s)
    (hst : s.state = .metadata_received ∨ s.state = .receiving_chunks)
    (hi : cd.chunk_index = some i)
    (hx : cd.data = some hex_data)
    (hsess : sessionMismatchB cd.session_id s.session_id = false)
    (h0 : ¬ i < 0)
    (hlt : ¬ i ≥ s.total_chunks)
    (hdec : bytes_fromhex hex_data = some bs)
    (hsz : (bs.length : Int) = get_expected_chunk_size m.config s i)
    (hck : checksumBadB cd.checksum (L.md5 bs) = false)
    (hdup : lookupChunk i s.received_chunks = some b0) :
    receive_chunk L m d cd now ts =
      ({ m with last_chunk_time := now }, d, .duplicate i) := by
  simp only [receive_chunk, hm]
  rw [if_pos hst]
  simp only [hi, hx]
  rw [if_neg (by simp [hsess]), if_neg h0, if_neg hlt]
  simp only [hdec]
  rw [if_neg (by simp [hsz]), if_neg (by simp [hck])]
  simp only [hdup]

/-- Witness instantiating `C7_duplicate_chunk_idempotent`: replaying the
already-received chunk 0 of `fxS`. -/
theorem C7_duplicate_chunk_idempotent_witness :
    receive_chunk fxL fxMact fxD fxFrame0 11 "ts" =
      ({ fxMact with last_chunk_time := 11 }, fxD, .duplicate 0) :=
  C7_duplicate_chunk_idempotent fxL fxMact fxD fxFrame0 11 "ts" fxS 0 "0102"
    [1, 2] [1, 2] (by decide) (Or.inr (by decide)) (by decide) (by decide)
    (by decide) (by decide) (by decide) (by decide) (by decide) (by decide)
    (by decide)

theorem get_expected_chunk_size_bounds (cfg : Config) (s : TransferSession)
    (i : Int) (hchunk : 0 < cfg.chunk_size) :
    1 ≤ get_expected_chunk_size cfg s i ∧
    get_expected_chunk_size cfg s i ≤ cfg.chunk_size ∧
    (i ≠ s.total_chunks - 1 → get_expected_chunk_size cfg s i = cfg.chunk_size) := by
  unfold get_expected_chunk_size
  by_cases hlast : i = s.total_chunks - 1
  · simp only [hlast, if_pos rfl]
    set eff := if s.is_compressed then s.compressed_size else s.file_size with heff
    have hmod := Int.emod_lt_of_pos eff hchunk
    have hnn := Int.emod_nonneg eff (by omega : cfg.chunk_size ≠ 0)
    by_cases hrem : eff % cfg.chunk_size > 0
    · rw [if_pos hrem]
      exact ⟨by omega, by omega, fun h => absurd rfl h⟩
    · rw [if_neg hrem]
      exact ⟨by omega, le_refl _, fun h => absurd rfl h⟩
  · rw [if_neg hlast]
    exact ⟨by omega, le_refl _, fun _ => rfl⟩

theorem lookupChunk_append_self (i : Int) (bs : List Nat)
    (l : List (Int × List Nat)) (h : lookupChunk i l = none) :
    lookupChunk i (l ++ [(i, bs)]) = some bs := by
  induction l with
  | nil => simp [lookupChunk]
  | cons p rest ih =>
    obtain ⟨j, b⟩ := p
    by_cases hj : j = i
    · simp [lookupChunk, hj] at h
    · simp only [List.cons_append, lookupChunk, hj, if_false] at h ⊢
      exact ih h

/-- Exhaustive case split of `receive_chunk` over an active session in a
receivable state: the call either fails via the `except` path, reports a
duplicate, or stores the decoded chunk (after which it acks or attempts
completion), with the validated frame facts recorded in each case. -/
theorem receive_chunk_master (L : Libs) (m : Manager) (d : Disk)
    (cd : ChunkData) (now : Int) (ts : String) (s : TransferSession)
    (hm : m.current_transfer = some s)
    (hst : s.state = .metadata_received ∨ s.state = .receiving_chunks) :
    (∃ e, receive_chunk L m d cd now ts =
        chunkFail { m with last_chunk_time := now } s d e) ∨
    (∃ i b0, cd.chunk_index = some i ∧
        lookupChunk i s.received_chunks = some b0 ∧
        receive_chunk L m d cd now ts =
          ({ m with last_chunk_time := now }, d, .duplicate i)) ∨
    (∃ i hex_data bs, cd.chunk_index = some i ∧ cd.data = some hex_data ∧
        bytes_fromhex hex_data = some bs ∧ ¬ i < 0 ∧ ¬ i ≥ s.total_chunks ∧
        (bs.length : Int) = get_expected_chunk_size m.config s i ∧
        lookupChunk i s.received_chunks = none ∧
        receive_chunk L m d cd now ts =
          (if (store_chunk s i bs now).chunks_received ≥
              (store_chunk s i bs now).total_chunks then
            complete_transfer L { m with last_chunk_time := now }
              (store_chunk s i bs now) d ts
          else
            ({ m with
               last_chunk_time := now,
               current_transfer := some (store_chunk s i bs now) }, d,
             .ack i (store_chunk s i bs now).chunks_received
               (store_chunk s i bs now).total_chunks
               ((sortInts (store_chunk s i bs now).missing_chunks).take 10)))) := by
  rcases hci : cd.chunk_index with _ | i
  · refine Or.inl ⟨.missingFields, ?_⟩
    simp only [receive_chunk, hm]
    rw [if_pos hst]
    simp [hci]
  rcases hcd : cd.data with _ | hex_data
  · refine Or.inl ⟨.missingFields, ?_⟩
    simp only [receive_chunk, hm]
    rw [if_pos hst]
    simp [hci, hcd]
  by_cases hsess : sessionMismatchB cd.session_id s.session_id = true
  · refine Or.inl ⟨.sessionMismatch, ?_⟩
    simp only [receive_chunk, hm]
    rw [if_pos hst]
    simp [hci, hcd, hsess]
  by_cases h0 : i < 0
  · refine Or.inl ⟨.invalidIndex, ?_⟩
    simp only [receive_chunk, hm]
    rw [if_pos hst]
    simp [hci, hcd, hsess, h0]
  by_cases hge : i ≥ s.total_chunks
  · refine Or.inl ⟨.indexTooLarge, ?_⟩
    simp only [receive_chunk, hm]
    rw [if_pos hst]
    simp [hci, hcd, hsess, h0, hge]
  rcases hdec : bytes_fromhex hex_data with _ | bs
  · refine Or.inl ⟨.invalidHex, ?_⟩
    simp only [receive_chunk, hm]
    rw [if_pos hst]
    simp [hci, hcd, hsess, h0, hge, hdec]
  by_cases hsz : (bs.length : Int) ≠ get_expected_chunk_size m.config s i
  · refine Or.inl ⟨.sizeMismatch, ?_⟩
    simp only [receive_chunk, hm]
    rw [if_pos hst]
    simp [hci, hcd, hsess, h0, hge, hdec, hsz]
  by_cases hck : checksumBadB cd.checksum (L.md5 bs) = true
  · refine Or.inl ⟨.checksumMismatch, ?_⟩
    simp only [receive_chunk, hm]
    rw [if_pos hst]
    simp [hci, hcd, hsess, h0, hge, hdec, hsz, hck]
  rcases hdup : lookupChunk i s.received_chunks with _ | b0
  · refine Or.inr (Or.inr ⟨i, hex_data, bs, by simp [hci], by simp [hcd],
      by simp [hdec], h0, hge, not_not.mp hsz, by simp [hdup], ?_⟩)
    simp only [receive_chunk, hm]
    rw [if_pos hst]
    simp [hci, hcd, hsess, h0, hge, hdec, hsz, hck, hdup]
  · refine Or.inr (Or.inl ⟨i, b0, by simp [hci], by simp [hdup], ?_⟩)
    simp only [receive_chunk, hm]
    rw [if_pos hst]
    simp [hci, hcd, hsess, h0, hge, hdec, hsz, hck, hdup]

/-- C9: whenever `receive_chunk` rejects a frame via the `except` path
(missing fields, session mismatch, out-of-range index, invalid hex,
wrong length, or checksum mismatch — every `CHUNK_PROCESSING_FAILED`
reply), the session keeps its `received_chunks`, `chunks_received`,
`missing_chunks` and `state` exactly as before (only the retry metric
moves), the state is still a receivable one, and the disk is untouched. -/
theorem C9_rejected_frame_preserves_session (L : Libs) (m : Manager)
    (d : Disk) (cd : ChunkData) (now : Int) (ts : String)
    (s : TransferSession) (e : ChunkErr)
    (hm : m.current_transfer = some s)
    (h : (receive_chunk L m d cd now ts).2.2 = .chunkError e) :
    ∃ s', (receive_chunk L m d cd now ts).1.current_transfer = some s' ∧
      s'.received_chunks = s.received_chunks ∧
      s'.chunks_received = s.chunks_received ∧
      s'.missing_chunks = s.missing_chunks ∧
      s'.state = s.state ∧
      (s.state = .metadata_received ∨ s.state = .receiving_chunks) ∧
      (receive_chunk L m d cd now ts).2.1 = d := by
  by_cases hst : s.state = .metadata_received ∨ s.state = .receiving_chunks
  · rcases receive_chunk_master L m d cd now ts s hm hst with
      ⟨e0, heq⟩ | ⟨i, b0, _, _, heq⟩ | ⟨i, hex_data, bs, _, _, _, _, _, _, _, heq⟩
    · refine ⟨{ s with metrics := { s.metrics with retries := s.metrics.retries + 1 } },
        ?_, rfl, rfl, rfl, rfl, hst, ?_⟩
      · rw [heq]; rfl
      · rw [heq]; rfl
    · rw [heq] at h
      simp at h
    · rw [heq] at h
      by_cases hcomp : (store_chunk s i bs now).chunks_received ≥
          (store_chunk s i bs now).total_chunks
      · rw [if_pos hcomp] at h
        have hsh := complete_transfer_shape L { m with last_chunk_time := now }
          (store_chunk s i bs now) d ts
        rw [h] at hsh
        simp [acceptedResult] at hsh
      · rw [if_neg hcomp] at h
        simp at h
  · exfalso
    revert h
    simp only [receive_chunk, hm]
    rw [if_neg hst]
    simp

/-- A frame whose index 5 is out of range for the one-chunk session
`fxS`. -/
def fxFrameBad : ChunkData :=
  { chunk_index := some 5, data := some "0102",
    session_id := none, checksum := none }

/-- Witness instantiating `C9_rejected_frame_preserves_session` at an
out-of-range index. -/
theorem C9_rejected_frame_preserves_session_witness :
    ∃ s', (receive_chunk fxL fxMact fxD fxFrameBad 11 "ts").1.current_transfer = some s' ∧
      s'.received_chunks = fxS.received_chunks ∧
      s'.chunks_received = fxS.chunks_received ∧
      s'.missing_chunks = fxS.missing_chunks ∧
      s'.state = fxS.state ∧
      (fxS.state = .metadata_received ∨ fxS.state = .receiving_chunks) ∧
      (receive_chunk fxL fxMact fxD fxFrameBad 11 "ts").2.1 = fxD :=
  C9_rejected_frame_preserves_session fxL fxMact fxD fxFrameBad 11 "ts" fxS
    .indexTooLarge (by decide) (by decide)

/-- C8: every chunk that `receive_chunk` actually stores (the call acks
it or proceeds to completion) was validated: its index is in range, its
decoded payload length equals the expected length for that index —
`chunk_size` for every index but the last, and for the last a value in
`{1 … chunk_size}` — so in particular a zero-length payload is never
accepted. -/
theorem C8_accepted_chunk_well_formed (L : Libs) (m : Manager) (d : Disk)
    (cd : ChunkData) (now : Int) (ts : String) (s : TransferSession)
    (hm : m.current_transfer = some s)
    (hchunk : 0 < m.config.chunk_size)
    (hacc : acceptedResult (receive_chunk L m d cd now ts).2.2 = true) :
    ∃ i hex_data bs, cd.chunk_index = some i ∧ cd.data = some hex_data ∧
      bytes_fromhex hex_data = some bs ∧
      0 ≤ i ∧ i < s.total_chunks ∧
      (bs.length : Int) = get_expected_chunk_size m.config s i ∧
      1 ≤ (bs.length : Int) ∧ (bs.length : Int) ≤ m.config.chunk_size ∧
      (i ≠ s.total_chunks - 1 → (bs.length : Int) = m.config.chunk_size) := by
  by_cases hst : s.state = .metadata_received ∨ s.state = .receiving_chunks
  · rcases receive_chunk_master L m d cd now ts s hm hst with
      ⟨e0, heq⟩ | ⟨i, b0, _, _, heq⟩ |
      ⟨i, hex_data, bs, hci, hcd, hdec, h0, hge, hsz, hdup, heq⟩
    · rw [heq] at hacc
      simp [chunkFail, acceptedResult] at hacc
    · rw [heq] at hacc
      simp [acceptedResult] at hacc
    · obtain ⟨hb1, hb2, hb3⟩ := get_expected_chunk_size_bounds m.config s i hchunk
      exact ⟨i, hex_data, bs, hci, hcd, hdec, by omega, by omega, hsz,
        by omega, by omega, fun hne => by rw [hsz]; exact hb3 hne⟩
  · exfalso
    revert hacc
    simp only [receive_chunk, hm]
    rw [if_neg hst]
    simp [acceptedResult]

/-- Fresh one-chunk session fixture: nothing received yet. -/
def fxSm : TransferSession :=
  { fxS with
    state := .metadata_received,
    received_chunks := [],
    chunks_received := 0,
    missing_chunks := [0] }

/-- Manager fixture holding `fxSm`. -/
def fxMm : Manager :=
  { config := fxCfg, current_transfer := some fxSm, last_chunk_time := 0 }

/-- Witness instantiating `C8_accepted_chunk_well_formed` on a frame
whose acceptance completes the transfer. -/
theorem C8_accepted_chunk_well_formed_witness :
    ∃ i hex_data bs, fxFrame0.chunk_index = some i ∧
      fxFrame0.data = some hex_data ∧
      bytes_fromhex hex_data = some bs ∧
      0 ≤ i ∧ i < fxSm.total_chunks ∧
      (bs.length : Int) = get_expected_chunk_size fxMm.config fxSm i ∧
      1 ≤ (bs.length : Int) ∧ (bs.length : Int) ≤ fxMm.config.chunk_size ∧
      (i ≠ fxSm.total_chunks - 1 → (bs.length : Int) = fxMm.config.chunk_size) :=
  C8_accepted_chunk_well_formed fxL fxMm fxD fxFrame0 11 "ts" fxSm
    (by decide) (by decide) (by decide)

/-- C10: the session-binding check fires only when the frame carries a
non-empty `session_id` (Python truthiness).  A frame that omits the
field (or carries the empty string) but is otherwise valid — in-range
index, correct decoded length, valid hex, passing checksum, not a
duplicate — is stored into the current session and acked with no
`SessionMismatch` error. -/
theorem C10_absent_session_id_skips_binding (L : Libs) (m : Manager)
    (d : Disk) (cd : ChunkData) (now : Int) (ts : String)
    (s : TransferSession) (i : Int) (hex_data : String) (bs : List Nat)
    (hm : m.current_transfer = some s)
    (hst : s.state = .metadata_received ∨ s.state = .receiving_chunks)
    (hi : cd.chunk_index = some i)
    (hx : cd.data = some hex_data)
    (hnosid : cd.session_id = none ∨ cd.session_id = some "")
    (h0 : ¬ i < 0)
    (hlt : ¬ i ≥ s.total_chunks)
    (hdec : bytes_fromhex hex_data = some bs)
    (hsz : (bs.length : Int) = get_expected_chunk_size m.config s i)
    (hck : checksumBadB cd.checksum (L.md5 bs) = false)
    (hdup : lookupChunk i s.received_chunks = none)
    (hroom : ((s.received_chunks.length : Int) + 1) < s.total_chunks) :
    receive_chunk L m d cd now ts =
      ({ m with
         last_chunk_time := now,
         current_transfer := some (store_chunk s i bs now) }, d,
       .ack i (store_chunk s i bs now).chunks_received
         (store_chunk s i bs now).total_chunks
         ((sortInts (store_chunk s i bs now).missing_chunks).take 10)) ∧
    lookupChunk i (store_chunk s i bs now).received_chunks = some bs := by
  have hsess : sessionMismatchB cd.session_id s.session_id = false := by
    rcases hnosid with h | h <;> simp [h, sessionMismatchB]
  have hnotfull : ¬ (store_chunk s i bs now).chunks_received ≥
      (store_chunk s i bs now).total_chunks := by
    simp only [store_chunk, List.length_append, List.length_singleton]
    push_cast
    omega
  constructor
  · simp only [receive_chunk, hm]
    rw [if_pos hst]
    simp only [hi, hx]
    rw [if_neg (by simp [hsess]), if_neg h0, if_neg hlt]
    simp only [hdec]
    rw [if_neg (by simp [hsz]), if_neg (by simp [hck])]
    simp only [hdup]
    rw [if_neg hnotfull]
  · exact lookupChunk_append_self i bs s.received_chunks hdup

/-- Fresh two-chunk session fixture: 3 wire bytes, nothing received. -/
def fxS2 : TransferSession :=
  { fxS with
    file_size := 3,
    compressed_size := 3,
    total_chunks := 2,
    received_chunks := [],
    chunks_received := 0,
    missing_chunks := [0, 1],
    state := .metadata_received }

/-- Manager fixture holding `fxS2`. -/
def fxM2 : Manager :=
  { config := fxCfg, current_transfer := some fxS2, last_chunk_time := 0 }

/-- A valid frame for chunk 0 that omits `session_id` entirely. -/
def fxFrameNoSid : ChunkData :=
  { chunk_index := some 0, data := some "0102",
    session_id := none, checksum := none }

/-- Witness instantiating `C10_absent_session_id_skips_binding`: the
session-id-free frame is stored and acked. -/
theorem C10_absent_session_id_skips_binding_witness :
    receive_chunk fxL fxM2 fxD fxFrameNoSid 11 "ts" =
      ({ fxM2 with
         last_chunk_time := 11,
         current_transfer := some (store_chunk fxS2 0 [1, 2] 11) }, fxD,
       .ack 0 (store_chunk fxS2 0 [1, 2] 11).chunks_received
         (store_chunk fxS2 0 [1, 2] 11).total_chunks
         ((sortInts (store_chunk fxS2 0 [1, 2] 11).missing_chunks).take 10)) ∧
    lookupChunk 0 (store_chunk fxS2 0 [1, 2] 11).received_chunks = some [1, 2] :=
  C10_absent_session_id_skips_binding fxL fxM2 fxD fxFrameNoSid 11 "ts" fxS2
    0 "0102" [1, 2] (by decide) (Or.inl (by decide)) (by decide) (by decide)
    (Or.inl (by decide)) (by decide) (by decide) (by decide) (by decide)
    (by decide) (by decide) (by decide)
